import Mathlib

/-!
Shallow embedding of the aggregation / anomaly-detection / insight-generation
engine of src/scripts/process_articles.py (class ArticleProcessor), together
with proofs about it.

Modelling conventions:
* Python floats are modelled as rationals (ℚ); the pipeline performs only
  field arithmetic on them.  When a computation involves NaN/None filtering
  (safe_mean) or non-finite values (convert_to_native_types) the possible
  invalidity is modelled explicitly by a dedicated inductive type.
* Python strings are Lean Strings; Python string comparison (used for sorting
  articles by the ISO publishedAt timestamp and dates) is the lexicographic
  order on Strings, which agrees with Python's code-point comparison.
* Python dicts keyed by date are only ever consumed after sorting their keys
  (sorted(by_date.keys()), sorted(historical_data.items())), so they are
  modelled as the sorted list of distinct keys plus a filter per key.  The
  topic-cluster dict is consumed in insertion order, modelled by firstOccs.
* Python's sorted(...) is stable; it is modelled by List.insertionSort, which
  is also stable for a total preorder on the sort key.
* Free-text fields built with float string-formatting (alert descriptions,
  insight titles/summaries) are not modelled; no claim mentions them.  For
  the same reason the keyword-counter feeding only those strings is omitted.
-/

/-- A value handed to safe_mean: a real number, Python None, or a float NaN. -/
inductive MeanInput
  | val (q : ℚ)
  | miss
  | nan
deriving DecidableEq

/-- ArticleProcessor.safe_mean: filter out None and NaN, return 0.0 on an
empty remainder, otherwise the arithmetic mean of the remaining values. -/
def safe_mean (values : List MeanInput) : ℚ :=
  let filtered := values.filterMap (fun v => match v with | .val q => some q | _ => none)
  if filtered.isEmpty then 0 else filtered.sum / (filtered.length : ℚ)

/-- The valid (kept) values of a safe_mean input list. -/
def validVals (values : List MeanInput) : List ℚ :=
  values.filterMap (fun v => match v with | .val q => some q | _ => none)

/-- safe_mean applied to a list of plain (always valid) numbers, as in every
call site inside generate_kpis / detect_anomalies / generate_insights, where
the inputs are arithmetic results that are never None. -/
def safeMeanQ (xs : List ℚ) : ℚ := safe_mean (xs.map MeanInput.val)

/-- A feature-annotated article, as produced by process_articles /
perform_topic_clustering.  Pass-through free-text fields (title, summary,
fullText, url, author, credibilityScore) are never read by the aggregation
logic and are not modelled. -/
structure Article where
  id : String
  source : String
  category : String
  publishedAt : String
  sentiment : String
  sentimentScore : ℚ
  kpiRelevance : List (String × ℚ)
  kpiIds : List String
  topicCluster : ℤ
  extractedTerms : List String
deriving DecidableEq

/-- A static KPI definition from the POWER_KPIS / TAX_KPIS tables. -/
structure KPIDefinition where
  id : String
  name : String
  keywords : List String
  category : String
  description : String
deriving DecidableEq

def POWER_KPIS : List KPIDefinition := [
  { id := "td-losses", name := "T&D Losses",
    keywords := ["T&D loss", "transmission loss", "distribution loss", "line loss"],
    category := "Energy",
    description := "Transmission and distribution losses in the power sector" },
  { id := "circular-debt", name := "Circular Debt",
    keywords := ["circular debt", "power sector debt"],
    category := "Energy",
    description := "Circular debt crisis in the power sector" },
  { id := "electricity-recovery", name := "Electricity Recovery",
    keywords := ["electricity recovery", "bill recovery", "power recovery"],
    category := "Energy",
    description := "Electricity bill recovery and collection rates" },
  { id := "imported-electricity", name := "Imported Electricity",
    keywords := ["imported electricity", "power import", "energy import"],
    category := "Energy",
    description := "Electricity imported from neighboring countries" },
  { id := "power-sector", name := "Power Sector",
    keywords := ["power sector", "electricity sector", "energy sector", "Nepra", "Disco", "IPP"],
    category := "Energy",
    description := "Overall power sector performance and stability" }]

def TAX_KPIS : List KPIDefinition := [
  { id := "fbr-tax", name := "FBR Tax Collection",
    keywords := ["FBR", "Federal Board of Revenue", "tax revenue"],
    category := "Taxation",
    description := "Federal Board of Revenue tax collection" },
  { id := "tax-to-gdp", name := "Tax-to-GDP Ratio",
    keywords := ["tax-to-GDP", "tax to GDP", "tax GDP ratio"],
    category := "Taxation",
    description := "Tax collection as percentage of GDP" },
  { id := "tax-collection", name := "Tax Collection",
    keywords := ["tax collection", "revenue collection", "tax receipts"],
    category := "Taxation",
    description := "Overall tax collection performance" },
  { id := "tax-expenditure", name := "Tax Expenditure",
    keywords := ["tax expenditure", "tax exemption", "tax concession"],
    category := "Taxation",
    description := "Tax expenditures and exemptions" },
  { id := "direct-taxes", name := "Direct Taxes",
    keywords := ["direct tax", "income tax", "corporate tax"],
    category := "Taxation",
    description := "Direct taxation revenue" },
  { id := "withholding-taxes", name := "Withholding Taxes",
    keywords := ["withholding tax", "WHT", "advance tax"],
    category := "Taxation",
    description := "Withholding tax collection" }]

/-- ALL_KPIS = merged power and tax registries, in dict insertion order. -/
def ALL_KPIS : List KPIDefinition := POWER_KPIS ++ TAX_KPIS

/-- Lookup of an article's relevance entry for a KPI id (None when the dict
has no entry for that id). -/
def relevanceOf (a : Article) (k : String) : Option ℚ :=
  (a.kpiRelevance.find? (fun p => p.1 == k)).map Prod.snd

/-- The relevance filter of generate_kpis:
kpi_id in a.kpiRelevance and a.kpiRelevance[kpi_id] > 30. -/
def isRelevant (k : String) (a : Article) : Bool :=
  match relevanceOf a k with
  | some r => decide (30 < r)
  | none => false

/-- relevant_articles of generate_kpis for one KPI id. -/
def relevant_articles (arts : List Article) (k : String) : List Article :=
  arts.filter (isRelevant k)

/-- The per-article weighted score:
((sentimentScore + 1) / 2) * (relevance / 100) * 100.  (Only ever applied to
relevant articles, where the relevance entry exists; getD 0 is a dead default.) -/
def weighted_score (k : String) (a : Article) : ℚ :=
  ((a.sentimentScore + 1) / 2) * (((relevanceOf a k).getD 0) / 100) * 100

/-- Lexicographic comparison of character sequences by code point, the order
Python uses to compare strings. -/
def charListLe : List Char → List Char → Bool
  | [], _ => true
  | _ :: _, [] => false
  | a :: as, b :: bs =>
    if a.toNat < b.toNat then true
    else if b.toNat < a.toNat then false
    else charListLe as bs

/-- Python string comparison s <= t. -/
def strLe (s t : String) : Bool := charListLe s.data t.data

theorem charListLe_refl : ∀ l : List Char, charListLe l l = true
  | [] => rfl
  | a :: as => by simp [charListLe, charListLe_refl as]

theorem charListLe_total : ∀ s t : List Char, charListLe s t = true ∨ charListLe t s = true
  | [], _ => Or.inl rfl
  | _ :: _, [] => Or.inr rfl
  | a :: as, b :: bs => by
    rcases Nat.lt_trichotomy a.toNat b.toNat with h | h | h
    · exact Or.inl (by simp [charListLe, h])
    · rcases charListLe_total as bs with h' | h'
      · exact Or.inl (by simp [charListLe, h, h'])
      · exact Or.inr (by simp [charListLe, h, h'])
    · exact Or.inr (by simp [charListLe, h])

theorem charListLe_trans : ∀ s t u : List Char,
    charListLe s t = true → charListLe t u = true → charListLe s u = true
  | [], _, _, _, _ => rfl
  | a :: as, [], _, h, _ => by simp [charListLe] at h
  | _ :: _, _ :: _, [], _, h => by simp [charListLe] at h
  | a :: as, b :: bs, c :: cs, h1, h2 => by
    simp only [charListLe] at h1 h2 ⊢
    split_ifs at h1 h2 ⊢ <;>
      first
        | rfl
        | exact charListLe_trans as bs cs h1 h2
        | omega
        | simp_all

/-- Ordering of articles by their publishedAt string, the key used by
sorted(relevant_articles, key=lambda x: x['publishedAt']). -/
def pubLe (a b : Article) : Prop := strLe a.publishedAt b.publishedAt = true

instance : DecidableRel pubLe := fun a b =>
  inferInstanceAs (Decidable (strLe a.publishedAt b.publishedAt = true))

instance : IsTotal Article pubLe :=
  ⟨fun a b => charListLe_total a.publishedAt.data b.publishedAt.data⟩

instance : IsTrans Article pubLe :=
  ⟨fun _ _ _ h h' => charListLe_trans _ _ _ h h'⟩

/-- Python's stable sorted(...) by publishedAt, modelled by insertion sort. -/
def sortByPub (l : List Article) : List Article := l.insertionSort pubLe

/-- Python l[-n:]: the last n elements (all of l when it is shorter). -/
def lastN {α : Type} (n : ℕ) (l : List α) : List α := l.drop (l.length - n)

/-- The calendar date of an article: article.publishedAt[:10]. -/
def dateOf (a : Article) : String := a.publishedAt.take 10

/-- Ordering of date strings, as a relation for sorting. -/
def strLeR (s t : String) : Prop := strLe s t = true

instance : DecidableRel strLeR := fun s t =>
  inferInstanceAs (Decidable (strLe s t = true))

instance : IsTotal String strLeR := ⟨fun s t => charListLe_total s.data t.data⟩

instance : IsTrans String strLeR := ⟨fun _ _ _ h h' => charListLe_trans _ _ _ h h'⟩

/-- Sorted list of dates, modelling sorted(dict keys). -/
def strSort (l : List String) : List String := l.insertionSort strLeR

/-- The sorted distinct calendar dates of a list of articles (the sorted key
set of a by-date dict). -/
def sorted_dates (arts : List Article) : List String :=
  strSort ((arts.map dateOf).dedup)

/-- Rounding to 2 decimal places, round(x, 2). -/
def round2 (q : ℚ) : ℚ := ((round (q * 100) : ℤ) : ℚ) / 100

/-- current_score of generate_kpis before rounding
(safe_mean(scores) if scores else 50). -/
def current_score (arts : List Article) (k : String) : ℚ :=
  let scores := (relevant_articles arts k).map (weighted_score k)
  if scores.isEmpty then 50 else safeMeanQ scores

/-- mid_point = len(sorted_articles) // 2. -/
def mid_point (arts : List Article) (k : String) : ℕ :=
  (sortByPub (relevant_articles arts k)).length / 2

/-- The weighted scores of the older half sorted_articles[:mid_point]. -/
def older_scores (arts : List Article) (k : String) : List ℚ :=
  ((sortByPub (relevant_articles arts k)).take (mid_point arts k)).map (weighted_score k)

/-- previous_score of generate_kpis before rounding: safe-mean of the older
half when more than 5 relevant articles, otherwise the current score. -/
def previous_score (arts : List Article) (k : String) : ℚ :=
  if 5 < (relevant_articles arts k).length then safeMeanQ (older_scores arts k)
  else current_score arts k

/-- trend of generate_kpis. -/
def trendOf (arts : List Article) (k : String) : String :=
  if 5 < (relevant_articles arts k).length then
    if previous_score arts k + 5 < current_score arts k then "up"
    else if current_score arts k < previous_score arts k - 5 then "down"
    else "stable"
  else "stable"

/-- One entry of a KPI's historicalData. -/
structure HistEntry where
  date : String
  score : ℚ
  articleCount : ℕ
deriving DecidableEq

/-- historicalData of generate_kpis: per-date safe-mean of weighted scores
and per-date article count, dates ascending. -/
def hist_data (arts : List Article) (k : String) : List HistEntry :=
  (sorted_dates (relevant_articles arts k)).map (fun d =>
    let scores := ((relevant_articles arts k).filter (fun a => dateOf a == d)).map (weighted_score k)
    { date := d, score := round2 (safeMeanQ scores), articleCount := scores.length })

/-- One step of Python max over strings: keep the current value unless the
next one is strictly greater. -/
def pymax (cur next : String) : String := if strLe next cur then cur else next

/-- max(a['publishedAt'] for a in arts) (the empty string, Python-minimal,
as fold base; the call sites all have non-empty input). -/
def last_updated (arts : List Article) : String :=
  (arts.map (·.publishedAt)).foldl pymax ""

/-- A derived KPI metric record (free-text static fields carried verbatim). -/
structure KPIMetric where
  id : String
  name : String
  description : String
  category : String
  keywords : List String
  currentScore : ℚ
  previousScore : ℚ
  trend : String
  articleCount : ℕ
  lastUpdated : String
  historicalData : List HistEntry
deriving DecidableEq

/-- The body of the per-KPI loop of generate_kpis: None when no relevant
article exists (the KPI is skipped), otherwise the assembled metric. -/
def mkKpi (arts : List Article) (kd : KPIDefinition) : Option KPIMetric :=
  if (relevant_articles arts kd.id).isEmpty then none
  else some {
    id := kd.id, name := kd.name, description := kd.description,
    category := kd.category, keywords := kd.keywords,
    currentScore := round2 (current_score arts kd.id),
    previousScore := round2 (previous_score arts kd.id),
    trend := trendOf arts kd.id,
    articleCount := (relevant_articles arts kd.id).length,
    lastUpdated := last_updated (relevant_articles arts kd.id),
    historicalData := hist_data arts kd.id }

/-- ArticleProcessor.generate_kpis. -/
def generate_kpis (arts : List Article) : List KPIMetric :=
  ALL_KPIS.filterMap (mkKpi arts)

/-- An alert record.  The free-text description (float-formatted) is not
modelled; all other fields are.  Volume-spike alerts carry no kpiId. -/
structure Alert where
  id : String
  title : String
  severity : String
  status : String
  kpiId : Option String
  createdAt : String
  source : String
deriving DecidableEq

/-- Number of articles on a given calendar date. -/
def date_count (arts : List Article) (d : String) : ℕ :=
  (arts.filter (fun a => dateOf a == d)).length

/-- daily_counts of detect_anomalies: per-date article counts, dates sorted. -/
def daily_counts (arts : List Article) : List ℚ :=
  (sorted_dates arts).map (fun d => (date_count arts d : ℚ))

/-- mean_count = safe_mean(daily_counts) (the counts are ints, never NaN). -/
def mean_count (arts : List Article) : ℚ := safeMeanQ (daily_counts arts)

/-- Population variance, the square of np.std. -/
def popVariance (xs : List ℚ) : ℚ :=
  if xs.isEmpty then 0
  else (xs.map (fun x => (x - safeMeanQ xs) ^ 2)).sum / (xs.length : ℚ)

/-- Variance of the daily counts (np.std(daily_counts) squared). -/
def var_count (arts : List Article) : ℚ := popVariance (daily_counts arts)

/-- The spike condition count > mean_count + 2 * np.std(daily_counts),
embedded in ℚ by squaring: with s = sqrt(var) ≥ 0, c > m + 2s iff
c - m > 0 and (c - m)^2 > 4*var.  The equivalence with the square-root
form is proved in sqrt_form_iff below. -/
def spike_flag (arts : List Article) (d : String) : Bool :=
  decide (mean_count arts < (date_count arts d : ℚ) ∧
    ((date_count arts d : ℚ) - mean_count arts) ^ 2 > 4 * var_count arts)

/-- The volume-spike alert record for a date. -/
def mkSpikeAlert (d : String) : Alert :=
  { id := "alert-spike-" ++ d, title := "Unusual Article Volume Spike",
    severity := "warning", status := "new", kpiId := none,
    createdAt := d ++ "T00:00:00Z", source := "Anomaly Detection" }

/-- The volume-spike sub-detector of detect_anomalies: needs more than 3
distinct dates, then checks each of the last 3 sorted dates. -/
def volume_alerts (arts : List Article) : List Alert :=
  if 3 < (daily_counts arts).length then
    (lastN 3 (sorted_dates arts)).filterMap (fun d =>
      if spike_flag arts d then some (mkSpikeAlert d) else none)
  else []

/-- The KPI-decline alert record. -/
def declineAlertRec (kpi : KPIMetric) : Alert :=
  { id := "alert-decline-" ++ kpi.id, title := kpi.name ++ " Score Declining",
    severity := if kpi.currentScore < 30 then "critical" else "warning",
    status := "new", kpiId := some kpi.id, createdAt := kpi.lastUpdated,
    source := "KPI Monitoring" }

/-- The KPI-decline rule of detect_anomalies. -/
def decline_alerts (kpi : KPIMetric) : List Alert :=
  if kpi.trend = "down" ∧ kpi.currentScore < 40 then [declineAlertRec kpi] else []

/-- kpi_articles: the articles whose kpiIds contain the given KPI id. -/
def kpi_articles (arts : List Article) (k : String) : List Article :=
  arts.filter (fun a => a.kpiIds.contains k)

/-- recent_kpi_articles: the last 7 of the kpi articles sorted by publishedAt. -/
def recent_kpi_articles (arts : List Article) (k : String) : List Article :=
  lastN 7 (sortByPub (kpi_articles arts k))

/-- negative_pct: fraction of the recent kpi articles with negative sentiment. -/
def negative_pct (arts : List Article) (k : String) : ℚ :=
  ((recent_kpi_articles arts k).countP (fun a => a.sentiment == "negative") : ℚ) /
    ((recent_kpi_articles arts k).length : ℚ)

/-- The negative-sentiment-surge alert record; createdAt is the publishedAt
of the last element of the recent articles (the sort puts the latest last). -/
def negSurgeAlertRec (arts : List Article) (kpi : KPIMetric) : Alert :=
  { id := "alert-negative-" ++ kpi.id,
    title := "High Negative Coverage for " ++ kpi.name,
    severity := "warning", status := "new", kpiId := some kpi.id,
    createdAt := (((recent_kpi_articles arts kpi.id).getLast?).map (·.publishedAt)).getD "",
    source := "Sentiment Analysis" }

/-- The negative-sentiment-surge rule of detect_anomalies. -/
def neg_surge_alerts (arts : List Article) (kpi : KPIMetric) : List Alert :=
  if 10 < (kpi_articles arts kpi.id).length ∧ negative_pct arts kpi.id > 7/10 then
    [negSurgeAlertRec arts kpi]
  else []

/-- ArticleProcessor.detect_anomalies: volume alerts, then per KPI the
decline alert followed by the negative-surge alert. -/
def detect_anomalies (arts : List Article) (kpis : List KPIMetric) : List Alert :=
  volume_alerts arts ++ kpis.flatMap (fun kpi => decline_alerts kpi ++ neg_surge_alerts arts kpi)

/-- An insight record.  The free-text title/summary (float-formatted) are not
modelled; id, type, confidence, relatedKpiIds and createdAt are. -/
structure Insight where
  id : String
  type : String
  confidence : ℚ
  relatedKpiIds : List String
  createdAt : String
deriving DecidableEq

/-- Mean sentimentScore over the articles associated to a KPI. -/
def avg_sentiment (arts : List Article) (k : String) : ℚ :=
  safeMeanQ ((kpi_articles arts k).map (·.sentimentScore))

/-- The positive-momentum insight record. -/
def posInsightRec (kpi : KPIMetric) : Insight :=
  { id := "insight-positive-" ++ kpi.id, type := "trend",
    confidence := round2 (min 95 (70 + |kpi.currentScore - kpi.previousScore|)),
    relatedKpiIds := [kpi.id], createdAt := kpi.lastUpdated }

/-- The negative-coverage insight record. -/
def negInsightRec (kpi : KPIMetric) : Insight :=
  { id := "insight-negative-" ++ kpi.id, type := "risk",
    confidence := round2 (min 95 (70 + |kpi.currentScore - kpi.previousScore|)),
    relatedKpiIds := [kpi.id], createdAt := kpi.lastUpdated }

/-- The positive-momentum / negative-coverage rule family of
generate_insights (an if/elif chain behind a more-than-10-articles gate). -/
def pos_neg_insights (arts : List Article) (kpi : KPIMetric) : List Insight :=
  if 10 < (kpi_articles arts kpi.id).length then
    if kpi.trend = "up" ∧ avg_sentiment arts kpi.id > 3/10 then [posInsightRec kpi]
    else if kpi.trend = "down" ∧ avg_sentiment arts kpi.id < -(1/5) then [negInsightRec kpi]
    else []
  else []

/-- Insertion-order deduplication, modelling iteration over a Python dict
built by successive insertions (first occurrence wins). -/
def firstOccs {α : Type} [DecidableEq α] (l : List α) : List α :=
  l.foldl (fun acc x => if x ∈ acc then acc else acc ++ [x]) []

/-- The distinct topic clusters in article order. -/
def cluster_ids (arts : List Article) : List ℤ :=
  firstOccs (arts.map (·.topicCluster))

/-- The articles of one topic cluster. -/
def cluster_articles (arts : List Article) (c : ℤ) : List Article :=
  arts.filter (fun a => a.topicCluster == c)

/-- The emerging-theme insight record for a cluster.  relatedKpiIds models
list(set(...)) by first-occurrence order (the Python set order is
implementation-defined; no claim depends on it). -/
def clusterInsightRec (arts : List Article) (c : ℤ) : Insight :=
  { id := "insight-cluster-" ++ toString c, type := "recommendation",
    confidence := round2 (min 90 (60 + ((cluster_articles arts c).length : ℚ))),
    relatedKpiIds := firstOccs ((cluster_articles arts c).flatMap (·.kpiIds)),
    createdAt := last_updated (cluster_articles arts c) }

/-- The emerging-theme rule family of generate_insights. -/
def cluster_insights (arts : List Article) : List Insight :=
  (cluster_ids arts).filterMap (fun c =>
    if 15 < (cluster_articles arts c).length then some (clusterInsightRec arts c) else none)

/-- all(recent[i] < recent[i-1]): adjacent entries strictly decreasing. -/
def strictDesc : List ℚ → Bool
  | a :: b :: rest => decide (b < a) && strictDesc (b :: rest)
  | _ => true

/-- The scores of the last 3 historicalData entries. -/
def recent_hist_scores (kpi : KPIMetric) : List ℚ :=
  (lastN 3 kpi.historicalData).map (·.score)

/-- The predictive-decline insight record. -/
def predictInsightRec (kpi : KPIMetric) : Insight :=
  { id := "insight-predict-" ++ kpi.id, type := "risk", confidence := 88,
    relatedKpiIds := [kpi.id], createdAt := kpi.lastUpdated }

/-- The predictive-decline rule family of generate_insights. -/
def predict_insights (kpi : KPIMetric) : List Insight :=
  if 3 ≤ kpi.historicalData.length ∧ strictDesc (recent_hist_scores kpi) then
    [predictInsightRec kpi]
  else []

/-- ArticleProcessor.generate_insights.  The alerts parameter is received
exactly as in the source signature; the source body never reads it. -/
def generate_insights (arts : List Article) (kpis : List KPIMetric)
    (alerts : List Alert) : List Insight :=
  kpis.flatMap (pos_neg_insights arts) ++ cluster_insights arts ++
    kpis.flatMap predict_insights

/-- The value of an IEEE float: a finite rational, NaN, or a signed infinity. -/
inductive FVal
  | finite (q : ℚ)
  | nan
  | inf
  | ninf

mutual

/-- A Python value as seen by convert_to_native_types: numpy integer and
floating scalars, native ints and floats, numpy arrays, dicts, lists, and
other leaves (strings, None, bools) that the function returns unchanged.
Python list and dict spines are modelled by the dedicated types PyList and
PyDict so that all recursion over values is structural. -/
inductive PyVal
  | npInt (n : ℤ)
  | npFloat (v : FVal)
  | pyInt (n : ℤ)
  | pyFloat (v : FVal)
  | str (s : String)
  | pyBool (b : Bool)
  | pyNone
  | ndarray (elems : PyList)
  | dict (entries : PyDict)
  | plist (elems : PyList)

/-- A sequence of Python values (the spine of a list or a numpy array). -/
inductive PyList
  | nil
  | cons (head : PyVal) (tail : PyList)

/-- The entries of a Python dict, in insertion order. -/
inductive PyDict
  | nil
  | cons (key : String) (val : PyVal) (tail : PyDict)

end

mutual

/-- numpy.ndarray.tolist(): numpy scalars become native scalars (values,
including NaN and infinities, unchanged), nested arrays become lists. -/
def tolist : PyVal → PyVal
  | .npInt n => .pyInt n
  | .npFloat v => .pyFloat v
  | .ndarray es => .plist (tolistList es)
  | x => x

/-- tolist applied to every element of an array. -/
def tolistList : PyList → PyList
  | .nil => .nil
  | .cons v rest => .cons (tolist v) (tolistList rest)

end

mutual

/-- ArticleProcessor.convert_to_native_types, branch for branch:
numpy ints become ints; numpy / native floats become None when NaN or
infinite and are kept otherwise; ndarrays are returned as obj.tolist()
with no further processing; dicts and lists recurse; all else unchanged. -/
def convert_to_native_types : PyVal → PyVal
  | .npInt n => .pyInt n
  | .npFloat v => match v with
    | .finite q => .pyFloat (.finite q)
    | _ => .pyNone
  | .pyFloat v => match v with
    | .finite q => .pyFloat (.finite q)
    | _ => .pyNone
  | .ndarray es => tolist (.ndarray es)
  | .dict entries => .dict (convertDict entries)
  | .plist es => .plist (convertList es)
  | x => x

/-- The dict comprehension branch of convert_to_native_types. -/
def convertDict : PyDict → PyDict
  | .nil => .nil
  | .cons k v rest => .cons k (convert_to_native_types v) (convertDict rest)

/-- The list comprehension branch of convert_to_native_types. -/
def convertList : PyList → PyList
  | .nil => .nil
  | .cons v rest => .cons (convert_to_native_types v) (convertList rest)

end

mutual

/-- Whether a value contains a non-finite numeric leaf anywhere. -/
def hasNonFinite : PyVal → Bool
  | .npFloat .nan | .npFloat .inf | .npFloat .ninf => true
  | .pyFloat .nan | .pyFloat .inf | .pyFloat .ninf => true
  | .ndarray es => hasNonFiniteList es
  | .dict entries => hasNonFiniteDict entries
  | .plist es => hasNonFiniteList es
  | _ => false

/-- Whether some element of a sequence contains a non-finite numeric leaf. -/
def hasNonFiniteList : PyList → Bool
  | .nil => false
  | .cons v rest => hasNonFinite v || hasNonFiniteList rest

/-- Whether some dict value contains a non-finite numeric leaf. -/
def hasNonFiniteDict : PyDict → Bool
  | .nil => false
  | .cons _ v rest => hasNonFinite v || hasNonFiniteDict rest

end

mutual

/-- Whether a value contains a numpy array anywhere. -/
def hasNdarray : PyVal → Bool
  | .ndarray _ => true
  | .dict entries => hasNdarrayDict entries
  | .plist es => hasNdarrayList es
  | _ => false

/-- Whether some element of a sequence contains a numpy array. -/
def hasNdarrayList : PyList → Bool
  | .nil => false
  | .cons v rest => hasNdarray v || hasNdarrayList rest

/-- Whether some dict value contains a numpy array. -/
def hasNdarrayDict : PyDict → Bool
  | .nil => false
  | .cons _ v rest => hasNdarray v || hasNdarrayDict rest

end

mutual

/-- Modelled from the spec: the normalization the claim describes, applied
recursively to every leaf: non-finite numeric leaves become the null marker,
finite numeric leaves keep their value (as native scalars), non-numeric
leaves pass through unchanged. -/
def specNormalize : PyVal → PyVal
  | .npInt n => .pyInt n
  | .npFloat (.finite q) => .pyFloat (.finite q)
  | .npFloat _ => .pyNone
  | .pyFloat (.finite q) => .pyFloat (.finite q)
  | .pyFloat _ => .pyNone
  | .ndarray es => .ndarray (specNormalizeList es)
  | .dict entries => .dict (specNormalizeDict entries)
  | .plist es => .plist (specNormalizeList es)
  | x => x

/-- specNormalize applied to every element of a sequence. -/
def specNormalizeList : PyList → PyList
  | .nil => .nil
  | .cons v rest => .cons (specNormalize v) (specNormalizeList rest)

/-- specNormalize applied to every dict value. -/
def specNormalizeDict : PyDict → PyDict
  | .nil => .nil
  | .cons k v rest => .cons k (specNormalize v) (specNormalizeDict rest)

end

/-! ### Generic helper lemmas -/

theorem str_append_right_cancel {s t u : String} (h : s ++ u = t ++ u) : s = t := by
  apply String.ext
  have hd : s.data ++ u.data = t.data ++ u.data := by
    rw [← String.data_append, ← String.data_append, h]
  exact List.append_cancel_right hd

theorem str_append_left_cancel {s t u : String} (h : u ++ s = u ++ t) : s = t := by
  apply String.ext
  have hd : u.data ++ s.data = u.data ++ t.data := by
    rw [← String.data_append, ← String.data_append, h]
  exact List.append_cancel_left hd

theorem str_ne_append {u v : String} (hlen : u.data.length = v.data.length)
    (hne : u ≠ v) (s t : String) : u ++ s ≠ v ++ t := by
  intro h
  apply hne
  apply String.ext
  have hd : u.data ++ s.data = v.data ++ t.data := by
    rw [← String.data_append, ← String.data_append, h]
  have h1 : (u.data ++ s.data).take u.data.length = u.data := List.take_left u.data s.data
  rw [hd, hlen, List.take_left v.data t.data] at h1
  exact h1.symm

theorem insight_neg_ne_predict (a b : String) :
    "insight-negative-" ++ a ≠ "insight-predict-" ++ b := by
  have e1 : ("insight-negative-" : String) = "insight-ne" ++ "gative-" := by decide
  have e2 : ("insight-predict-" : String) = "insight-pr" ++ "edict-" := by decide
  rw [e1, e2, String.append_assoc, String.append_assoc]
  exact str_ne_append (by decide) (by decide) _ _

/-! ### Claim C7: safe_mean -/

/-- Claim C7: safe_mean returns exactly 0 on an empty or all-invalid (None /
NaN) collection, and the arithmetic mean of the valid elements only
otherwise. -/
theorem claim_C7 (vs : List MeanInput) :
    (validVals vs = [] → safe_mean vs = 0) ∧
    (validVals vs ≠ [] →
      safe_mean vs = (validVals vs).sum / ((validVals vs).length : ℚ)) := by
  have heq : safe_mean vs =
      if (validVals vs).isEmpty then 0
      else (validVals vs).sum / ((validVals vs).length : ℚ) := rfl
  constructor
  · intro h
    rw [heq, h]
    rfl
  · intro h
    rw [heq, if_neg]
    simp [List.isEmpty_iff, h]

/-- Witness for claim C7 at concrete inputs. -/
theorem claim_C7_witness :
    safe_mean [.miss, .nan] = 0 ∧ safe_mean [.miss, .val 4, .val 6] = 5 := by
  constructor
  · exact (claim_C7 [.miss, .nan]).1 rfl
  · rw [(claim_C7 [.miss, .val 4, .val 6]).2 (by decide)]
    show ((4:ℚ) + (6 + 0)) / (2 : ℚ) = 5
    norm_num

/-! ### Claim C8: insights do not consult alerts -/

/-- Claim C8: generate_insights never reads its alerts argument, so for any
fixed articles and KPI metrics, any two alert collections produce identical
insight output. -/
theorem claim_C8 (arts : List Article) (kpis : List KPIMetric)
    (alerts1 alerts2 : List Alert) :
    generate_insights arts kpis alerts1 = generate_insights arts kpis alerts2 := rfl

/-! ### Claim C9: output normalization -/

mutual

theorem conv_ok_val : ∀ (v : PyVal), hasNdarray v = false →
    hasNonFinite (convert_to_native_types v) = false ∧
    convert_to_native_types v = specNormalize v
  | .npInt n, _ => by
    simp [convert_to_native_types, specNormalize, hasNonFinite]
  | .npFloat (.finite q), _ => by
    simp [convert_to_native_types, specNormalize, hasNonFinite]
  | .npFloat .nan, _ => by
    simp [convert_to_native_types, specNormalize, hasNonFinite]
  | .npFloat .inf, _ => by
    simp [convert_to_native_types, specNormalize, hasNonFinite]
  | .npFloat .ninf, _ => by
    simp [convert_to_native_types, specNormalize, hasNonFinite]
  | .pyInt n, _ => by
    simp [convert_to_native_types, specNormalize, hasNonFinite]
  | .pyFloat (.finite q), _ => by
    simp [convert_to_native_types, specNormalize, hasNonFinite]
  | .pyFloat .nan, _ => by
    simp [convert_to_native_types, specNormalize, hasNonFinite]
  | .pyFloat .inf, _ => by
    simp [convert_to_native_types, specNormalize, hasNonFinite]
  | .pyFloat .ninf, _ => by
    simp [convert_to_native_types, specNormalize, hasNonFinite]
  | .str s, _ => by
    simp [convert_to_native_types, specNormalize, hasNonFinite]
  | .pyBool b, _ => by
    simp [convert_to_native_types, specNormalize, hasNonFinite]
  | .pyNone, _ => by
    simp [convert_to_native_types, specNormalize, hasNonFinite]
  | .ndarray es, h => by
    simp [hasNdarray] at h
  | .dict entries, h => by
    have hd : hasNdarrayDict entries = false := by simpa [hasNdarray] using h
    have ih := conv_ok_dict entries hd
    refine ⟨?_, ?_⟩
    · simp [convert_to_native_types, hasNonFinite, ih.1]
    · simp [convert_to_native_types, specNormalize, ih.2]
  | .plist es, h => by
    have hd : hasNdarrayList es = false := by simpa [hasNdarray] using h
    have ih := conv_ok_list es hd
    refine ⟨?_, ?_⟩
    · simp [convert_to_native_types, hasNonFinite, ih.1]
    · simp [convert_to_native_types, specNormalize, ih.2]

theorem conv_ok_list : ∀ (l : PyList), hasNdarrayList l = false →
    hasNonFiniteList (convertList l) = false ∧ convertList l = specNormalizeList l
  | .nil, _ => by
    simp [convertList, hasNonFiniteList, specNormalizeList]
  | .cons v rest, h => by
    have h1 : hasNdarray v = false ∧ hasNdarrayList rest = false := by
      simpa [hasNdarrayList, Bool.or_eq_false_iff] using h
    have ih1 := conv_ok_val v h1.1
    have ih2 := conv_ok_list rest h1.2
    refine ⟨?_, ?_⟩
    · simp [convertList, hasNonFiniteList, ih1.1, ih2.1]
    · simp [convertList, specNormalizeList, ih1.2, ih2.2]

theorem conv_ok_dict : ∀ (d : PyDict), hasNdarrayDict d = false →
    hasNonFiniteDict (convertDict d) = false ∧ convertDict d = specNormalizeDict d
  | .nil, _ => by
    simp [convertDict, hasNonFiniteDict, specNormalizeDict]
  | .cons k v rest, h => by
    have h1 : hasNdarray v = false ∧ hasNdarrayDict rest = false := by
      simpa [hasNdarrayDict, Bool.or_eq_false_iff] using h
    have ih1 := conv_ok_val v h1.1
    have ih2 := conv_ok_dict rest h1.2
    refine ⟨?_, ?_⟩
    · simp [convertDict, hasNonFiniteDict, ih1.1, ih2.1]
    · simp [convertDict, specNormalizeDict, ih1.2, ih2.2]

end

/-- Counterexample to claim C9 as stated: a NaN inside a numpy array is not
replaced by the null marker; convert_to_native_types returns it as a native
float NaN, so the output still contains a non-finite numeric leaf. -/
theorem claim_C9_counterexample :
    convert_to_native_types (.ndarray (.cons (.npFloat .nan) .nil)) =
      .plist (.cons (.pyFloat .nan) .nil) ∧
    hasNonFinite (convert_to_native_types (.ndarray (.cons (.npFloat .nan) .nil))) = true := by
  constructor
  · simp [convert_to_native_types, tolist, tolistList]
  · simp [convert_to_native_types, tolist, tolistList, hasNonFinite, hasNonFiniteList]

/-- Claim C9 (amended): on any structure containing no numpy array,
convert_to_native_types leaves no non-finite numeric leaf in its output and
coincides with the leaf-wise normalization of the claim (non-finite numeric
leaves become null — never zero —, finite numeric leaves keep their value,
non-numeric leaves pass through unchanged). -/
theorem claim_C9_amended (v : PyVal) (h : hasNdarray v = false) :
    hasNonFinite (convert_to_native_types v) = false ∧
    convert_to_native_types v = specNormalize v :=
  conv_ok_val v h

/-- Witness for the amended claim C9 at a concrete input. -/
theorem claim_C9_witness :
    hasNonFinite (convert_to_native_types
      (.dict (.cons "a" (.pyFloat .nan) (.cons "b" (.npFloat (.finite 1)) .nil)))) = false :=
  (claim_C9_amended _ (by simp [hasNdarray, hasNdarrayDict])).1

/-! ### Lemmas about generate_kpis -/

theorem mem_generate_kpis {arts : List Article} {km : KPIMetric} :
    km ∈ generate_kpis arts ↔ ∃ kd ∈ ALL_KPIS, mkKpi arts kd = some km :=
  List.mem_filterMap

theorem mkKpi_inv {arts : List Article} {kd : KPIDefinition} {km : KPIMetric}
    (h : mkKpi arts kd = some km) :
    relevant_articles arts kd.id ≠ [] ∧
    km.id = kd.id ∧
    km.currentScore = round2 (current_score arts kd.id) ∧
    km.previousScore = round2 (previous_score arts kd.id) ∧
    km.trend = trendOf arts kd.id ∧
    km.articleCount = (relevant_articles arts kd.id).length ∧
    km.historicalData = hist_data arts kd.id := by
  unfold mkKpi at h
  split_ifs at h with hemp
  injection h with h'
  subst h'
  exact ⟨by simpa [List.isEmpty_iff] using hemp, rfl, rfl, rfl, rfl, rfl, rfl⟩

theorem of_mem_generate_kpis {arts : List Article} {km : KPIMetric}
    (h : km ∈ generate_kpis arts) :
    relevant_articles arts km.id ≠ [] ∧
    km.currentScore = round2 (current_score arts km.id) ∧
    km.previousScore = round2 (previous_score arts km.id) ∧
    km.trend = trendOf arts km.id ∧
    km.articleCount = (relevant_articles arts km.id).length ∧
    km.historicalData = hist_data arts km.id := by
  obtain ⟨kd, _, hsome⟩ := mem_generate_kpis.mp h
  obtain ⟨hne, hid, h3, h4, h5, h6, h7⟩ := mkKpi_inv hsome
  rw [← hid] at hne h3 h4 h5 h6 h7
  exact ⟨hne, h3, h4, h5, h6, h7⟩

theorem mkKpi_of_ne {arts : List Article} {kd : KPIDefinition}
    (hne : relevant_articles arts kd.id ≠ []) :
    ∃ km, mkKpi arts kd = some km ∧ km.id = kd.id := by
  unfold mkKpi
  rw [if_neg (by simpa [List.isEmpty_iff] using hne)]
  exact ⟨_, rfl, rfl⟩

/-! ### Claim C1: KPI presence -/

/-- Claim C1: for every KPI id in the registry, the output of generate_kpis
contains a metric for that id iff some input article has a kpiRelevance entry
for that id strictly above 30; otherwise the KPI is omitted entirely. -/
theorem claim_C1 (arts : List Article) (k : String)
    (hk : k ∈ ALL_KPIS.map (fun kd => kd.id)) :
    (∃ km ∈ generate_kpis arts, km.id = k) ↔ (∃ a ∈ arts, isRelevant k a = true) := by
  constructor
  · rintro ⟨km, hmem, hid⟩
    have h := (of_mem_generate_kpis hmem).1
    rw [hid] at h
    obtain ⟨a, ha⟩ := List.exists_mem_of_ne_nil _ h
    have := List.mem_filter.mp ha
    exact ⟨a, this.1, this.2⟩
  · rintro ⟨a, hmem, hrel⟩
    obtain ⟨kd, hkd, hkdid⟩ := List.mem_map.mp hk
    have hne : relevant_articles arts kd.id ≠ [] := by
      intro hnil
      have : a ∈ relevant_articles arts kd.id :=
        List.mem_filter.mpr ⟨hmem, by rw [hkdid]; exact hrel⟩
      simp [hnil] at this
    obtain ⟨km, hsome, hid⟩ := mkKpi_of_ne hne
    exact ⟨km, mem_generate_kpis.mpr ⟨kd, hkd, hsome⟩, by rw [hid, hkdid]⟩

/-! ### Claim C2: trend classification -/

/-- Claim C2: for every emitted metric, with at most 5 relevant articles the
previous score equals the current score and the trend is stable; with more
than 5, writing cur for the safe-mean of the weighted scores over all
relevant articles and prev for the safe-mean over the older half (the first
half of the publishedAt-ascending sort, split at the floor midpoint of the
count), the trend is up iff cur > prev + 5, down iff cur < prev - 5 and
stable otherwise, the three cases exhaustive and mutually exclusive. -/
theorem claim_C2 (arts : List Article) (km : KPIMetric)
    (h : km ∈ generate_kpis arts) :
    mid_point arts km.id = (relevant_articles arts km.id).length / 2 ∧
    ((relevant_articles arts km.id).length ≤ 5 →
      km.previousScore = km.currentScore ∧ km.trend = "stable") ∧
    (5 < (relevant_articles arts km.id).length →
      ((km.trend = "up" ↔
         safeMeanQ (older_scores arts km.id) + 5 <
           safeMeanQ ((relevant_articles arts km.id).map (weighted_score km.id))) ∧
       (km.trend = "down" ↔
         safeMeanQ ((relevant_articles arts km.id).map (weighted_score km.id)) <
           safeMeanQ (older_scores arts km.id) - 5) ∧
       (km.trend = "stable" ↔
         (¬ safeMeanQ (older_scores arts km.id) + 5 <
             safeMeanQ ((relevant_articles arts km.id).map (weighted_score km.id)) ∧
          ¬ safeMeanQ ((relevant_articles arts km.id).map (weighted_score km.id)) <
             safeMeanQ (older_scores arts km.id) - 5)))) := by
  obtain ⟨hne, hcs, hps, htr, _, _⟩ := of_mem_generate_kpis h
  have hmid : mid_point arts km.id = (relevant_articles arts km.id).length / 2 := by
    unfold mid_point sortByPub
    rw [(List.perm_insertionSort pubLe _).length_eq]
  have hcur : current_score arts km.id =
      safeMeanQ ((relevant_articles arts km.id).map (weighted_score km.id)) := by
    unfold current_score
    rw [if_neg (by simp [List.isEmpty_iff, hne])]
  refine ⟨hmid, ?_, ?_⟩
  · intro hle
    have h5 : ¬ 5 < (relevant_articles arts km.id).length := by omega
    constructor
    · rw [hps, hcs]
      unfold previous_score
      rw [if_neg h5]
    · rw [htr]
      unfold trendOf
      rw [if_neg h5]
  · intro hgt
    have hps' : previous_score arts km.id = safeMeanQ (older_scores arts km.id) := by
      unfold previous_score
      rw [if_pos hgt]
    rw [htr]
    unfold trendOf
    rw [if_pos hgt, hps', hcur]
    split_ifs with h1 h2
    · exact ⟨iff_of_true rfl h1, iff_of_false (by decide) (by linarith),
        iff_of_false (by decide) (fun hc => hc.1 h1)⟩
    · exact ⟨iff_of_false (by decide) h1, iff_of_true rfl h2,
        iff_of_false (by decide) (fun hc => hc.2 h2)⟩
    · exact ⟨iff_of_false (by decide) h1, iff_of_false (by decide) h2,
        iff_of_true rfl ⟨h1, h2⟩⟩

/-! ### Claim C10: historicalData partitions the relevant articles -/

theorem mem_strSort {l : List String} {d : String} : d ∈ strSort l ↔ d ∈ l :=
  (List.perm_insertionSort _ l).mem_iff

theorem nodup_strSort {l : List String} (h : l.Nodup) : (strSort l).Nodup :=
  ((List.perm_insertionSort _ l).nodup_iff).mpr h

theorem mem_sorted_dates {arts : List Article} {d : String} :
    d ∈ sorted_dates arts ↔ ∃ a ∈ arts, dateOf a = d := by
  unfold sorted_dates
  rw [mem_strSort, List.mem_dedup, List.mem_map]

theorem nodup_sorted_dates (arts : List Article) : (sorted_dates arts).Nodup :=
  nodup_strSort (List.nodup_dedup _)

theorem sum_map_add_nat {α : Type} (D : List α) (f g : α → ℕ) :
    (D.map (fun d => f d + g d)).sum = (D.map f).sum + (D.map g).sum := by
  induction D with
  | nil => rfl
  | cons d D ih =>
    simp only [List.map_cons, List.sum_cons, ih]
    omega

theorem sum_map_ite_zero (D : List String) (x : String) (hx : x ∉ D) :
    (D.map (fun d => if x = d then 1 else 0)).sum = 0 := by
  induction D with
  | nil => rfl
  | cons d D ih =>
    have hxd : x ≠ d := fun hc => hx (hc ▸ List.mem_cons_self d D)
    have hxD : x ∉ D := fun hc => hx (List.mem_cons_of_mem d hc)
    simp only [List.map_cons, List.sum_cons, if_neg hxd, ih hxD]

theorem sum_map_ite_one (D : List String) (x : String) (hD : D.Nodup) (hx : x ∈ D) :
    (D.map (fun d => if x = d then 1 else 0)).sum = 1 := by
  induction D with
  | nil => simp at hx
  | cons d D ih =>
    rcases List.mem_cons.mp hx with h | h
    · have hxD : x ∉ D := by
        rw [h]
        exact (List.nodup_cons.mp hD).1
      simp only [List.map_cons, List.sum_cons, if_pos h, sum_map_ite_zero D x hxD]
    · have hxd : x ≠ d := by
        intro hc
        exact (List.nodup_cons.mp hD).1 (hc ▸ h)
      simp only [List.map_cons, List.sum_cons, if_neg hxd, ih (List.nodup_cons.mp hD).2 h]

theorem sum_counts (D : List String) (key : Article → String) (l : List Article)
    (hD : D.Nodup) (hcov : ∀ a ∈ l, key a ∈ D) :
    (D.map (fun d => (l.filter (fun a => key a == d)).length)).sum = l.length := by
  induction l with
  | nil => simp
  | cons a l ih =>
    have hcov' : ∀ b ∈ l, key b ∈ D := fun b hb => hcov b (List.mem_cons_of_mem a hb)
    have hstep : (D.map (fun d => ((a :: l).filter (fun b => key b == d)).length)) =
        (D.map (fun d => (l.filter (fun b => key b == d)).length + (if key a = d then 1 else 0))) := by
      apply List.map_congr_left
      intro d _
      by_cases hd : key a = d
      · simp [List.filter_cons, hd]
      · simp [List.filter_cons, hd]
    rw [hstep, sum_map_add_nat, ih hcov',
      sum_map_ite_one D (key a) hD (hcov a (List.mem_cons_self a l))]
    simp

/-- Claim C10: for every emitted metric, the historicalData date buckets
partition the relevant articles: the per-date article counts sum to the
metric's articleCount, and every bucket is non-empty. -/
theorem claim_C10 (arts : List Article) (km : KPIMetric)
    (h : km ∈ generate_kpis arts) :
    ((km.historicalData.map (fun e => e.articleCount)).sum = km.articleCount) ∧
    (∀ e ∈ km.historicalData, 1 ≤ e.articleCount) := by
  obtain ⟨_, _, _, _, hcount, hhd⟩ := of_mem_generate_kpis h
  constructor
  · rw [hhd, hcount]
    unfold hist_data
    rw [List.map_map]
    have heq : ((fun e : HistEntry => e.articleCount) ∘ (fun d =>
        ({ date := d,
           score := round2 (safeMeanQ (((relevant_articles arts km.id).filter
             (fun a => dateOf a == d)).map (weighted_score km.id))),
           articleCount := (((relevant_articles arts km.id).filter
             (fun a => dateOf a == d)).map (weighted_score km.id)).length } : HistEntry))) =
        fun d => ((relevant_articles arts km.id).filter (fun a => dateOf a == d)).length := by
      funext d
      simp [List.length_map]
    rw [heq]
    exact sum_counts _ dateOf _ (nodup_sorted_dates _)
      (fun a ha => mem_sorted_dates.mpr ⟨a, ha, rfl⟩)
  · intro e he
    rw [hhd] at he
    unfold hist_data at he
    obtain ⟨d, hd, hde⟩ := List.mem_map.mp he
    obtain ⟨a, ha, had⟩ := mem_sorted_dates.mp hd
    have hmem : a ∈ (relevant_articles arts km.id).filter (fun a => dateOf a == d) :=
      List.mem_filter.mpr ⟨ha, by rw [beq_iff_eq]; exact had⟩
    have hpos := List.length_pos_of_mem hmem
    rw [← hde]
    simpa [List.length_map] using hpos

/-! ### Concrete inputs for the C1, C2 and C10 witnesses -/

def art_C1 : Article :=
  { id := "a1", source := "dawn", category := "power",
    publishedAt := "2026-01-01T00:00:00Z", sentiment := "neutral",
    sentimentScore := 0, kpiRelevance := [("td-losses", 50)],
    kpiIds := ["td-losses"], topicCluster := 0, extractedTerms := [] }

/-- Witness for claim C1 at a concrete input. -/
theorem claim_C1_witness :
    (generate_kpis [art_C1]).any (fun km => km.id == "td-losses") = true := by
  obtain ⟨km, h1, h2⟩ := (claim_C1 [art_C1] "td-losses" (by decide)).mpr
    ⟨art_C1, List.mem_singleton.mpr rfl, by decide⟩
  exact List.any_eq_true.mpr ⟨km, h1, by simp [h2]⟩

def art_C2 : Article :=
  { id := "a1", source := "dawn", category := "power",
    publishedAt := "2026-01-01T00:00:00Z", sentiment := "positive",
    sentimentScore := 1, kpiRelevance := [("td-losses", 100)],
    kpiIds := ["td-losses"], topicCluster := 0, extractedTerms := [] }

def km_C2 : KPIMetric :=
  { id := "td-losses", name := "T&D Losses",
    description := "Transmission and distribution losses in the power sector",
    category := "Energy",
    keywords := ["T&D loss", "transmission loss", "distribution loss", "line loss"],
    currentScore := 100, previousScore := 100, trend := "stable",
    articleCount := 1, lastUpdated := "2026-01-01T00:00:00Z",
    historicalData := [{ date := "2026-01-01", score := 100, articleCount := 1 }] }

def kd_C2 : KPIDefinition :=
  { id := "td-losses", name := "T&D Losses",
    keywords := ["T&D loss", "transmission loss", "distribution loss", "line loss"],
    category := "Energy",
    description := "Transmission and distribution losses in the power sector" }

theorem km_C2_mem : km_C2 ∈ generate_kpis [art_C2] := by
  apply mem_generate_kpis.mpr
  refine ⟨kd_C2, by decide, ?_⟩
  unfold mkKpi
  rw [if_neg (by decide)]
  norm_num [km_C2, kd_C2, current_score, previous_score, trendOf, hist_data, sorted_dates,
    strSort, List.insertionSort, List.orderedInsert, relevant_articles, isRelevant,
    relevanceOf, weighted_score, safeMeanQ, safe_mean, round2, last_updated, pymax,
    strLe, charListLe, dateOf, mid_point, sortByPub, older_scores, lastN,
    List.filter, List.filterMap, List.foldl, List.dedup_cons_of_not_mem,
    round_eq, art_C2]
  refine ⟨by decide, ?_⟩
  rw [if_neg (by simp)]
  norm_num

/-- Witness for claim C2 at a concrete input. -/
theorem claim_C2_witness : km_C2.previousScore = km_C2.currentScore ∧ km_C2.trend = "stable" :=
  (claim_C2 [art_C2] km_C2 km_C2_mem).2.1 (by decide)

def art_C10 : Article :=
  { id := "a1", source := "dawn", category := "power",
    publishedAt := "2026-01-01T00:00:00Z", sentiment := "positive",
    sentimentScore := 1, kpiRelevance := [("td-losses", 100)],
    kpiIds := ["td-losses"], topicCluster := 0, extractedTerms := [] }

def km_C10 : KPIMetric :=
  { id := "td-losses", name := "T&D Losses",
    description := "Transmission and distribution losses in the power sector",
    category := "Energy",
    keywords := ["T&D loss", "transmission loss", "distribution loss", "line loss"],
    currentScore := 100, previousScore := 100, trend := "stable",
    articleCount := 1, lastUpdated := "2026-01-01T00:00:00Z",
    historicalData := [{ date := "2026-01-01", score := 100, articleCount := 1 }] }

def kd_C10 : KPIDefinition :=
  { id := "td-losses", name := "T&D Losses",
    keywords := ["T&D loss", "transmission loss", "distribution loss", "line loss"],
    category := "Energy",
    description := "Transmission and distribution losses in the power sector" }

theorem km_C10_mem : km_C10 ∈ generate_kpis [art_C10] := by
  apply mem_generate_kpis.mpr
  refine ⟨kd_C10, by decide, ?_⟩
  unfold mkKpi
  rw [if_neg (by decide)]
  norm_num [km_C10, kd_C10, current_score, previous_score, trendOf, hist_data, sorted_dates,
    strSort, List.insertionSort, List.orderedInsert, relevant_articles, isRelevant,
    relevanceOf, weighted_score, safeMeanQ, safe_mean, round2, last_updated, pymax,
    strLe, charListLe, dateOf, mid_point, sortByPub, older_scores, lastN,
    List.filter, List.filterMap, List.foldl, List.dedup_cons_of_not_mem,
    round_eq, art_C10]
  refine ⟨by decide, ?_⟩
  rw [if_neg (by simp)]
  norm_num

/-- Witness for claim C10 at a concrete input. -/
theorem claim_C10_witness :
    (km_C10.historicalData.map (fun e => e.articleCount)).sum = km_C10.articleCount :=
  (claim_C10 [art_C10] km_C10 km_C10_mem).1

/-! ### Lemmas about detect_anomalies -/

theorem mem_volume_alerts_iff {arts : List Article} {al : Alert} :
    al ∈ volume_alerts arts ↔
    3 < (daily_counts arts).length ∧
      ∃ d ∈ lastN 3 (sorted_dates arts), spike_flag arts d = true ∧ al = mkSpikeAlert d := by
  unfold volume_alerts
  split_ifs with h
  · constructor
    · intro hm
      obtain ⟨d, hd, hfd⟩ := List.mem_filterMap.mp hm
      by_cases hf : spike_flag arts d = true
      · rw [if_pos hf] at hfd
        injection hfd with h'
        exact ⟨h, d, hd, hf, h'.symm⟩
      · rw [if_neg hf] at hfd
        exact absurd hfd (by simp)
    · rintro ⟨-, d, hd, hf, rfl⟩
      exact List.mem_filterMap.mpr ⟨d, hd, by rw [if_pos hf]⟩
  · simp [h]

theorem volume_alert_source {arts : List Article} {al : Alert}
    (h : al ∈ volume_alerts arts) : al.source = "Anomaly Detection" := by
  obtain ⟨-, d, -, -, rfl⟩ := mem_volume_alerts_iff.mp h
  rfl

theorem mem_decline_alerts {kpi : KPIMetric} {al : Alert} :
    al ∈ decline_alerts kpi ↔
    (kpi.trend = "down" ∧ kpi.currentScore < 40) ∧ al = declineAlertRec kpi := by
  unfold decline_alerts
  split_ifs with h
  · simp [h]
  · simp [h]

theorem mem_neg_surge_alerts {arts : List Article} {kpi : KPIMetric} {al : Alert} :
    al ∈ neg_surge_alerts arts kpi ↔
    (10 < (kpi_articles arts kpi.id).length ∧ negative_pct arts kpi.id > 7/10) ∧
      al = negSurgeAlertRec arts kpi := by
  unfold neg_surge_alerts
  split_ifs with h
  · simp [h]
  · simp [h]

theorem mem_detect_anomalies {arts : List Article} {kpis : List KPIMetric} {al : Alert} :
    al ∈ detect_anomalies arts kpis ↔
    al ∈ volume_alerts arts ∨
      ∃ kpi ∈ kpis, al ∈ decline_alerts kpi ∨ al ∈ neg_surge_alerts arts kpi := by
  unfold detect_anomalies
  simp [List.mem_append, List.mem_flatMap]

theorem countP_flatMap_zero {α β : Type} (l : List α) (f : α → List β) (p : β → Bool)
    (h : ∀ x ∈ l, (f x).countP p = 0) : (l.flatMap f).countP p = 0 := by
  induction l with
  | nil => rfl
  | cons x t ih =>
    rw [List.flatMap_cons, List.countP_append, h x (List.mem_cons_self x t),
      ih (fun y hy => h y (List.mem_cons_of_mem x hy))]

theorem countP_flatMap_single {α β : Type} (l : List α) (f : α → List β) (p : β → Bool)
    (key : α → String) (x0 : α) (hmem : x0 ∈ l) (hnd : (l.map key).Nodup)
    (hother : ∀ x ∈ l, key x ≠ key x0 → (f x).countP p = 0) :
    (l.flatMap f).countP p = (f x0).countP p := by
  induction l with
  | nil => simp at hmem
  | cons x t ih =>
    rw [List.flatMap_cons, List.countP_append]
    have hnd1 : key x ∉ t.map key := (List.nodup_cons.mp hnd).1
    have hnd2 : (t.map key).Nodup := (List.nodup_cons.mp hnd).2
    rcases List.mem_cons.mp hmem with heq | hmem'
    · subst heq
      have ht : (t.flatMap f).countP p = 0 := by
        apply countP_flatMap_zero
        intro y hy
        apply hother y (List.mem_cons_of_mem x0 hy)
        intro hc
        exact hnd1 (hc ▸ List.mem_map.mpr ⟨y, hy, rfl⟩)
      rw [ht]
      omega
    · have hx : (f x).countP p = 0 := by
        apply hother x (List.mem_cons_self x t)
        intro hc
        exact hnd1 (hc ▸ List.mem_map.mpr ⟨x0, hmem', rfl⟩)
      rw [hx, ih hmem' hnd2 (fun y hy => hother y (List.mem_cons_of_mem x hy))]
      omega

/-! ### Claim C6: KPI-decline alerts -/

/-- Claim C6: a KPI-decline alert for an emitted metric exists iff its trend
is down and its current score is strictly below 40; exactly one such alert is
produced per qualifying KPI, with severity critical below 30 and warning
otherwise. -/
theorem claim_C6 (arts : List Article) (kpis : List KPIMetric) (km : KPIMetric)
    (hmem : km ∈ kpis) (hnd : (kpis.map (fun kpi => kpi.id)).Nodup) :
    ((declineAlertRec km ∈ detect_anomalies arts kpis) ↔
      (km.trend = "down" ∧ km.currentScore < 40)) ∧
    ((detect_anomalies arts kpis).countP
        (fun al => decide (al.source = "KPI Monitoring" ∧ al.kpiId = some km.id)) =
      if km.trend = "down" ∧ km.currentScore < 40 then 1 else 0) ∧
    ((declineAlertRec km).severity = if km.currentScore < 30 then "critical" else "warning") := by
  refine ⟨?_, ?_, rfl⟩
  · constructor
    · intro h
      rcases mem_detect_anomalies.mp h with hv | ⟨kpi, hk, hd | hn⟩
      · exact absurd (volume_alert_source hv) (by simp [declineAlertRec])
      · obtain ⟨hcond, heq⟩ := mem_decline_alerts.mp hd
        have hid : km.id = kpi.id := by
          have := congrArg Alert.kpiId heq
          simpa [declineAlertRec] using this
        have : kpi = km := List.inj_on_of_nodup_map hnd hk hmem hid.symm
        rwa [this] at hcond
      · obtain ⟨-, heq⟩ := mem_neg_surge_alerts.mp hn
        have := congrArg Alert.source heq
        exact absurd this (by simp [declineAlertRec, negSurgeAlertRec])
    · intro hc
      exact mem_detect_anomalies.mpr
        (Or.inr ⟨km, hmem, Or.inl (mem_decline_alerts.mpr ⟨hc, rfl⟩)⟩)
  · unfold detect_anomalies
    rw [List.countP_append]
    have hvol : (volume_alerts arts).countP
        (fun al => decide (al.source = "KPI Monitoring" ∧ al.kpiId = some km.id)) = 0 := by
      rw [List.countP_eq_zero]
      intro al hal hp
      rw [decide_eq_true_eq] at hp
      rw [volume_alert_source hal] at hp
      exact absurd hp.1 (by decide)
    have hsingle : ((kpis.flatMap (fun kpi => decline_alerts kpi ++ neg_surge_alerts arts kpi)).countP
        (fun al => decide (al.source = "KPI Monitoring" ∧ al.kpiId = some km.id))) =
        ((decline_alerts km ++ neg_surge_alerts arts km).countP
          (fun al => decide (al.source = "KPI Monitoring" ∧ al.kpiId = some km.id))) := by
      apply countP_flatMap_single kpis _ _ (fun kpi => kpi.id) km hmem hnd
      intro x hx hne
      rw [List.countP_eq_zero]
      intro al hal hp
      rw [decide_eq_true_eq] at hp
      rcases List.mem_append.mp hal with hd | hn
      · obtain ⟨-, rfl⟩ := mem_decline_alerts.mp hd
        have : some x.id = some km.id := hp.2
        exact hne (by injection this)
      · obtain ⟨-, rfl⟩ := mem_neg_surge_alerts.mp hn
        exact absurd hp.1 (by simp [negSurgeAlertRec])
    rw [hvol, hsingle, List.countP_append]
    have hneg : (neg_surge_alerts arts km).countP
        (fun al => decide (al.source = "KPI Monitoring" ∧ al.kpiId = some km.id)) = 0 := by
      rw [List.countP_eq_zero]
      intro al hal hp
      rw [decide_eq_true_eq] at hp
      obtain ⟨-, rfl⟩ := mem_neg_surge_alerts.mp hal
      exact absurd hp.1 (by simp [negSurgeAlertRec])
    rw [hneg]
    unfold decline_alerts
    split_ifs with h
    · simp [declineAlertRec]
    · simp

def km_C6 : KPIMetric :=
  { id := "td-losses", name := "T&D Losses",
    description := "Transmission and distribution losses in the power sector",
    category := "Energy",
    keywords := ["T&D loss", "transmission loss", "distribution loss", "line loss"],
    currentScore := 20, previousScore := 60, trend := "down",
    articleCount := 6, lastUpdated := "2026-01-06T00:00:00Z",
    historicalData := [] }

/-- Witness for claim C6 at a concrete input. -/
theorem claim_C6_witness : declineAlertRec km_C6 ∈ detect_anomalies [] [km_C6] :=
  (claim_C6 [] [km_C6] km_C6 (List.mem_singleton.mpr rfl) (by simp)).1.mpr
    ⟨rfl, by norm_num [km_C6]⟩

/-! ### Claim C5: negative-sentiment-surge alerts -/

theorem sorted_sortByPub (l : List Article) : List.Sorted pubLe (sortByPub l) :=
  List.sorted_insertionSort pubLe l

theorem sorted_recent (arts : List Article) (k : String) :
    List.Sorted pubLe (recent_kpi_articles arts k) :=
  List.Pairwise.sublist (List.drop_sublist _ _) (sorted_sortByPub _)

theorem sorted_last_is_max {l : List Article} (hs : List.Sorted pubLe l) {b : Article}
    (hb : l.getLast? = some b) : ∀ a ∈ l, strLe a.publishedAt b.publishedAt = true := by
  obtain ⟨ys, rfl⟩ := List.getLast?_eq_some_iff.mp hb
  intro a ha
  rcases List.mem_append.mp ha with hy | hm
  · exact (List.pairwise_append.mp hs).2.2 a hy b (List.mem_singleton.mpr rfl)
  · rw [List.mem_singleton.mp hm]
    exact charListLe_refl _

theorem recent_length (arts : List Article) (k : String)
    (h : 10 < (kpi_articles arts k).length) :
    (recent_kpi_articles arts k).length = 7 := by
  unfold recent_kpi_articles lastN sortByPub
  rw [List.length_drop]
  have := (List.perm_insertionSort pubLe (kpi_articles arts k)).length_eq
  omega

/-- Claim C5: for every metric in the KPI list, a negative-sentiment-surge
alert for that KPI is emitted iff strictly more than 10 articles carry the
KPI id in kpiIds and, among the 7 most recently published of those (the last
7 of the publishedAt-ascending stable sort, which has exactly 7 entries under
the gate), the fraction with negative sentiment strictly exceeds 0.7; an
emitted alert has severity warning and its creation timestamp equals the
latest publishedAt among those 7 articles. -/
theorem claim_C5 (arts : List Article) (kpis : List KPIMetric) (km : KPIMetric)
    (hmem : km ∈ kpis) (hnd : (kpis.map (fun kpi => kpi.id)).Nodup) :
    (10 < (kpi_articles arts km.id).length → (recent_kpi_articles arts km.id).length = 7) ∧
    ((negSurgeAlertRec arts km ∈ detect_anomalies arts kpis) ↔
      (10 < (kpi_articles arts km.id).length ∧ negative_pct arts km.id > 7/10)) ∧
    ((negSurgeAlertRec arts km).severity = "warning") ∧
    (∀ al ∈ detect_anomalies arts kpis,
      al.source = "Sentiment Analysis" → al.kpiId = some km.id →
      ((∀ a ∈ recent_kpi_articles arts km.id, strLe a.publishedAt al.createdAt = true) ∧
       (∃ a ∈ recent_kpi_articles arts km.id, al.createdAt = a.publishedAt))) := by
  refine ⟨recent_length arts km.id, ?_, rfl, ?_⟩
  · constructor
    · intro h
      rcases mem_detect_anomalies.mp h with hv | ⟨kpi, hk, hd | hn⟩
      · exact absurd (volume_alert_source hv) (by simp [negSurgeAlertRec])
      · obtain ⟨-, heq⟩ := mem_decline_alerts.mp hd
        have := congrArg Alert.source heq
        exact absurd this (by simp [declineAlertRec, negSurgeAlertRec])
      · obtain ⟨hcond, heq⟩ := mem_neg_surge_alerts.mp hn
        have hid : km.id = kpi.id := by
          have := congrArg Alert.kpiId heq
          simpa [negSurgeAlertRec] using this
        have hkpi : kpi = km := List.inj_on_of_nodup_map hnd hk hmem hid.symm
        rwa [hkpi] at hcond
    · intro hc
      exact mem_detect_anomalies.mpr
        (Or.inr ⟨km, hmem, Or.inr (mem_neg_surge_alerts.mpr ⟨hc, rfl⟩)⟩)
  · intro al hal hsrc hkid
    rcases mem_detect_anomalies.mp hal with hv | ⟨kpi, hk, hd | hn⟩
    · exact absurd ((volume_alert_source hv).symm.trans hsrc) (by decide)
    · obtain ⟨-, rfl⟩ := mem_decline_alerts.mp hd
      simp [declineAlertRec] at hsrc
    · obtain ⟨hcond, rfl⟩ := mem_neg_surge_alerts.mp hn
      have hid : kpi.id = km.id := by simpa [negSurgeAlertRec] using hkid
      have hkpi : kpi = km := List.inj_on_of_nodup_map hnd hk hmem hid
      subst hkpi
      have hlen : (recent_kpi_articles arts kpi.id).length = 7 :=
        recent_length _ _ hcond.1
      have hne : recent_kpi_articles arts kpi.id ≠ [] := by
        intro hc
        rw [hc] at hlen
        simp at hlen
      cases hlast : (recent_kpi_articles arts kpi.id).getLast? with
      | none => exact absurd (List.getLast?_eq_none_iff.mp hlast) hne
      | some b =>
        have hca : (negSurgeAlertRec arts kpi).createdAt = b.publishedAt := by
          simp [negSurgeAlertRec, hlast]
        constructor
        · intro a ha
          rw [hca]
          exact sorted_last_is_max (sorted_recent arts kpi.id) hlast a ha
        · refine ⟨b, ?_, hca⟩
          obtain ⟨ys, hys⟩ := List.getLast?_eq_some_iff.mp hlast
          rw [hys]
          simp

def mkArtC5 (n : String) : Article :=
  { id := n, source := "s", category := "power", publishedAt := "d",
    sentiment := "negative", sentimentScore := 0, kpiRelevance := [],
    kpiIds := ["k"], topicCluster := 0, extractedTerms := [] }

def arts_C5 : List Article :=
  [mkArtC5 "a1", mkArtC5 "a2", mkArtC5 "a3", mkArtC5 "a4", mkArtC5 "a5",
   mkArtC5 "a6", mkArtC5 "a7", mkArtC5 "a8", mkArtC5 "a9", mkArtC5 "b1",
   mkArtC5 "b2"]

def km_C5 : KPIMetric :=
  { id := "k", name := "K", description := "", category := "", keywords := [],
    currentScore := 50, previousScore := 50, trend := "stable",
    articleCount := 11, lastUpdated := "d", historicalData := [] }

/-- Witness for claim C5 at a concrete input. -/
theorem claim_C5_witness : negSurgeAlertRec arts_C5 km_C5 ∈ detect_anomalies arts_C5 [km_C5] :=
  (claim_C5 arts_C5 [km_C5] km_C5 (List.mem_singleton.mpr rfl) (by simp)).2.1.mpr
    ⟨by decide, by
      norm_num [negative_pct, recent_kpi_articles, sortByPub, lastN, kpi_articles,
        List.insertionSort, List.orderedInsert, pubLe, strLe, charListLe,
        arts_C5, mkArtC5, km_C5, List.filter, List.countP_cons, List.drop]⟩

/-! ### Claim C3: volume-spike alerts -/

theorem popVariance_nonneg (xs : List ℚ) : 0 ≤ popVariance xs := by
  unfold popVariance
  split_ifs
  · exact le_refl 0
  · apply div_nonneg
    · apply List.sum_nonneg
      intro x hx
      obtain ⟨y, -, rfl⟩ := List.mem_map.mp hx
      positivity
    · positivity

theorem two_sqrt_lt_iff (c m v : ℚ) (hv : 0 ≤ v) :
    ((m : ℝ) + 2 * Real.sqrt ((v : ℚ) : ℝ) < ((c : ℚ) : ℝ)) ↔
      (m < c ∧ 4 * v < (c - m) ^ 2) := by
  have hs : (0:ℝ) ≤ Real.sqrt ((v : ℚ) : ℝ) := Real.sqrt_nonneg _
  have hs2 : (Real.sqrt ((v : ℚ) : ℝ)) ^ 2 = ((v : ℚ) : ℝ) :=
    Real.sq_sqrt (by exact_mod_cast hv)
  constructor
  · intro h
    have h1 : ((m : ℚ) : ℝ) < ((c : ℚ) : ℝ) := by nlinarith
    have h2 : 4 * ((v : ℚ) : ℝ) < (((c : ℚ) : ℝ) - ((m : ℚ) : ℝ)) ^ 2 := by nlinarith
    exact ⟨by exact_mod_cast h1, by exact_mod_cast h2⟩
  · rintro ⟨h1, h2⟩
    have h1' : ((m : ℚ) : ℝ) < ((c : ℚ) : ℝ) := by exact_mod_cast h1
    have h2' : 4 * ((v : ℚ) : ℝ) < (((c : ℚ) : ℝ) - ((m : ℚ) : ℝ)) ^ 2 := by exact_mod_cast h2
    by_contra hcon
    push_neg at hcon
    have hx : (0:ℝ) ≤ 2 * Real.sqrt ((v : ℚ) : ℝ) - (((c : ℚ) : ℝ) - ((m : ℚ) : ℝ)) := by
      linarith
    have hy : (0:ℝ) ≤ 2 * Real.sqrt ((v : ℚ) : ℝ) + (((c : ℚ) : ℝ) - ((m : ℚ) : ℝ)) := by
      linarith
    nlinarith [mul_nonneg hx hy, hs2]

theorem spike_flag_iff (arts : List Article) (d : String) :
    spike_flag arts d = true ↔
    ((mean_count arts : ℝ) + 2 * Real.sqrt ((var_count arts : ℚ) : ℝ) <
      ((date_count arts d : ℚ) : ℝ)) := by
  unfold spike_flag
  rw [decide_eq_true_eq]
  constructor
  · rintro ⟨h1, h2⟩
    exact (two_sqrt_lt_iff _ _ _ (popVariance_nonneg _)).mpr ⟨h1, h2⟩
  · intro h
    obtain ⟨h1, h2⟩ := (two_sqrt_lt_iff _ _ _ (popVariance_nonneg _)).mp h
    exact ⟨h1, h2⟩

theorem daily_counts_length (arts : List Article) :
    (daily_counts arts).length = (sorted_dates arts).length :=
  List.length_map _ _

theorem spike_countP (arts : List Article) : ∀ (D : List String),
    ((D.filterMap (fun d => if spike_flag arts d then some (mkSpikeAlert d) else none)).countP
      (fun al => al.source == "Anomaly Detection")) = D.countP (spike_flag arts)
  | [] => rfl
  | d :: D => by
    by_cases hf : spike_flag arts d = true
    · have hsome : (if spike_flag arts d = true then some (mkSpikeAlert d) else none) =
          some (mkSpikeAlert d) := if_pos hf
      simp [List.filterMap_cons, hsome, List.countP_cons, spike_countP arts D, hf,
        show ((mkSpikeAlert d).source == "Anomaly Detection") = true from rfl]
    · have hnone : (if spike_flag arts d = true then some (mkSpikeAlert d) else none) =
          none := if_neg hf
      simp [List.filterMap_cons, hnone, List.countP_cons, spike_countP arts D, hf]

/-- Claim C3: volume-spike alerts exist only for dates among the 3 most
recent distinct sorted dates; a date is flagged exactly when its article
count strictly exceeds the mean plus twice the population standard deviation
of the per-date counts over all distinct dates; with fewer than 4 distinct
dates no volume alert is produced; and each flagged date yields exactly one
alert, of severity warning. -/
theorem claim_C3 (arts : List Article) (kpis : List KPIMetric) :
    ((sorted_dates arts).length ≤ 3 →
      ∀ al ∈ detect_anomalies arts kpis, al.source ≠ "Anomaly Detection") ∧
    (∀ d, (mkSpikeAlert d ∈ detect_anomalies arts kpis ↔
      3 < (sorted_dates arts).length ∧ d ∈ lastN 3 (sorted_dates arts) ∧
        spike_flag arts d = true)) ∧
    (∀ d, spike_flag arts d = true ↔
      ((mean_count arts : ℝ) + 2 * Real.sqrt ((var_count arts : ℚ) : ℝ) <
        ((date_count arts d : ℚ) : ℝ))) ∧
    (∀ al ∈ detect_anomalies arts kpis, al.source = "Anomaly Detection" →
      al.severity = "warning" ∧ ∃ d ∈ lastN 3 (sorted_dates arts), al = mkSpikeAlert d) ∧
    (3 < (sorted_dates arts).length →
      (detect_anomalies arts kpis).countP (fun al => al.source == "Anomaly Detection") =
        (lastN 3 (sorted_dates arts)).countP (spike_flag arts)) := by
  refine ⟨?_, ?_, spike_flag_iff arts, ?_, ?_⟩
  · intro hle al hal hsrc
    rcases mem_detect_anomalies.mp hal with hv | ⟨kpi, hk, hd | hn⟩
    · have h3 := (mem_volume_alerts_iff.mp hv).1
      rw [daily_counts_length] at h3
      omega
    · obtain ⟨-, rfl⟩ := mem_decline_alerts.mp hd
      simp [declineAlertRec] at hsrc
    · obtain ⟨-, rfl⟩ := mem_neg_surge_alerts.mp hn
      simp [negSurgeAlertRec] at hsrc
  · intro d
    constructor
    · intro h
      rcases mem_detect_anomalies.mp h with hv | ⟨kpi, hk, hd | hn⟩
      · obtain ⟨h3, d', hd', hf', heq⟩ := mem_volume_alerts_iff.mp hv
        have hdd : d = d' := by
          have hcr := congrArg Alert.createdAt heq
          simp only [mkSpikeAlert] at hcr
          exact str_append_right_cancel hcr
        rw [daily_counts_length] at h3
        exact ⟨h3, hdd ▸ hd', hdd ▸ hf'⟩
      · obtain ⟨-, heq⟩ := mem_decline_alerts.mp hd
        have := congrArg Alert.source heq
        simp [mkSpikeAlert, declineAlertRec] at this
      · obtain ⟨-, heq⟩ := mem_neg_surge_alerts.mp hn
        have := congrArg Alert.source heq
        simp [mkSpikeAlert, negSurgeAlertRec] at this
    · rintro ⟨h3, hd, hf⟩
      apply mem_detect_anomalies.mpr
      left
      apply mem_volume_alerts_iff.mpr
      exact ⟨by rw [daily_counts_length]; exact h3, d, hd, hf, rfl⟩
  · intro al hal hsrc
    rcases mem_detect_anomalies.mp hal with hv | ⟨kpi, hk, hd | hn⟩
    · obtain ⟨-, d, hd, -, rfl⟩ := mem_volume_alerts_iff.mp hv
      exact ⟨rfl, d, hd, rfl⟩
    · obtain ⟨-, rfl⟩ := mem_decline_alerts.mp hd
      simp [declineAlertRec] at hsrc
    · obtain ⟨-, rfl⟩ := mem_neg_surge_alerts.mp hn
      simp [negSurgeAlertRec] at hsrc
  · intro h3
    unfold detect_anomalies
    rw [List.countP_append]
    have hkpi0 : ((kpis.flatMap fun kpi => decline_alerts kpi ++ neg_surge_alerts arts kpi).countP
        (fun al => al.source == "Anomaly Detection")) = 0 := by
      apply countP_flatMap_zero
      intro kpi _
      rw [List.countP_append]
      have h1 : (decline_alerts kpi).countP (fun al => al.source == "Anomaly Detection") = 0 := by
        rw [List.countP_eq_zero]
        intro al hal
        obtain ⟨-, rfl⟩ := mem_decline_alerts.mp hal
        simp [declineAlertRec]
      have h2 : (neg_surge_alerts arts kpi).countP (fun al => al.source == "Anomaly Detection") = 0 := by
        rw [List.countP_eq_zero]
        intro al hal
        obtain ⟨-, rfl⟩ := mem_neg_surge_alerts.mp hal
        simp [negSurgeAlertRec]
      omega
    have hvol : (volume_alerts arts).countP (fun al => al.source == "Anomaly Detection") =
        (lastN 3 (sorted_dates arts)).countP (spike_flag arts) := by
      unfold volume_alerts
      rw [if_pos (by rw [daily_counts_length]; exact h3)]
      exact spike_countP arts _
    rw [hvol, hkpi0]
    omega

def mkArtC3 (n pub : String) : Article :=
  { id := n, source := "s", category := "power", publishedAt := pub,
    sentiment := "neutral", sentimentScore := 0, kpiRelevance := [],
    kpiIds := [], topicCluster := 0, extractedTerms := [] }

def arts_C3 : List Article :=
  [mkArtC3 "a1" "d1", mkArtC3 "a2" "d2", mkArtC3 "a3" "d3", mkArtC3 "a4" "d4",
   mkArtC3 "a5" "d5", mkArtC3 "b1" "d9", mkArtC3 "b2" "d9", mkArtC3 "b3" "d9"]

/-- Witness for claim C3 at a concrete input. -/
theorem claim_C3_witness : mkSpikeAlert "d9" ∈ detect_anomalies arts_C3 [] := by
  have hdaily : daily_counts arts_C3 = [1, 1, 1, 1, 1, 3] := by decide
  have hmean : mean_count arts_C3 = 4/3 := by
    unfold mean_count
    rw [hdaily]
    norm_num [safeMeanQ, safe_mean, List.filterMap]
  have hvar : var_count arts_C3 = 5/9 := by
    unfold var_count
    rw [hdaily]
    norm_num [popVariance, safeMeanQ, safe_mean, List.filterMap]
  have hdc : (date_count arts_C3 "d9" : ℚ) = 3 := by decide
  apply ((claim_C3 arts_C3 []).2.1 "d9").mpr
  refine ⟨by decide, by decide, ?_⟩
  unfold spike_flag
  rw [decide_eq_true_eq, hmean, hvar, hdc]
  norm_num

/-! ### Claim C4: predictive-decline insights -/

theorem strictDesc_iff_chain : ∀ l : List ℚ,
    strictDesc l = true ↔ List.Chain' (fun a b => b < a) l
  | [] => by simp [strictDesc]
  | [a] => by simp [strictDesc]
  | a :: b :: rest => by
    rw [List.chain'_cons]
    simp [strictDesc, strictDesc_iff_chain (b :: rest)]

theorem mem_pos_neg_insights {arts : List Article} {kpi : KPIMetric} {ins : Insight}
    (h : ins ∈ pos_neg_insights arts kpi) :
    ins = posInsightRec kpi ∨ ins = negInsightRec kpi := by
  unfold pos_neg_insights at h
  split_ifs at h <;>
    first
      | exact Or.inl (List.mem_singleton.mp h)
      | exact Or.inr (List.mem_singleton.mp h)
      | simp at h

theorem mem_cluster_insights {arts : List Article} {ins : Insight}
    (h : ins ∈ cluster_insights arts) :
    ∃ c, ins = clusterInsightRec arts c := by
  unfold cluster_insights at h
  obtain ⟨c, -, hc⟩ := List.mem_filterMap.mp h
  split_ifs at hc
  exact ⟨c, (Option.some.inj hc).symm⟩

theorem mem_predict_insights {kpi : KPIMetric} {ins : Insight} :
    ins ∈ predict_insights kpi ↔
    (3 ≤ kpi.historicalData.length ∧ strictDesc (recent_hist_scores kpi) = true) ∧
      ins = predictInsightRec kpi := by
  unfold predict_insights
  split_ifs with h <;> simp [h]

theorem mem_generate_insights {arts : List Article} {kpis : List KPIMetric}
    {alerts : List Alert} {ins : Insight} :
    ins ∈ generate_insights arts kpis alerts ↔
    (∃ kpi ∈ kpis, ins ∈ pos_neg_insights arts kpi) ∨
      ins ∈ cluster_insights arts ∨ ∃ kpi ∈ kpis, ins ∈ predict_insights kpi := by
  unfold generate_insights
  simp [List.mem_append, List.mem_flatMap, or_assoc]

/-- Claim C4: for every metric in the KPI list with at least 3 historicalData
entries, the predictive-decline insight (type risk, confidence exactly 88)
is emitted iff the scores of the last 3 historicalData entries are strictly
decreasing, each strictly below its predecessor; any tie or increase in the
trailing 3 suppresses it. -/
theorem claim_C4 (arts : List Article) (kpis : List KPIMetric) (alerts : List Alert)
    (km : KPIMetric) (hmem : km ∈ kpis) (hnd : (kpis.map (fun kpi => kpi.id)).Nodup)
    (hlen : 3 ≤ km.historicalData.length) :
    ((predictInsightRec km ∈ generate_insights arts kpis alerts) ↔
      List.Chain' (fun a b : ℚ => b < a) (recent_hist_scores km)) ∧
    (predictInsightRec km).type = "risk" ∧ (predictInsightRec km).confidence = 88 := by
  refine ⟨?_, rfl, rfl⟩
  constructor
  · intro h
    rcases mem_generate_insights.mp h with ⟨kpi, hk, hpn⟩ | hcl | ⟨kpi, hk, hpred⟩
    · rcases mem_pos_neg_insights hpn with heq | heq
      · have := congrArg Insight.type heq
        simp [predictInsightRec, posInsightRec] at this
      · have := congrArg Insight.id heq
        simp only [predictInsightRec, negInsightRec] at this
        exact absurd this.symm (insight_neg_ne_predict kpi.id km.id)
    · obtain ⟨c, heq⟩ := mem_cluster_insights hcl
      have := congrArg Insight.type heq
      simp [predictInsightRec, clusterInsightRec] at this
    · obtain ⟨⟨-, hdesc⟩, heq⟩ := mem_predict_insights.mp hpred
      have hid : km.id = kpi.id := by
        have := congrArg Insight.id heq
        simp only [predictInsightRec] at this
        exact str_append_left_cancel this
      have hkpi : kpi = km := List.inj_on_of_nodup_map hnd hk hmem hid.symm
      rw [hkpi] at hdesc
      exact (strictDesc_iff_chain _).mp hdesc
  · intro h
    apply mem_generate_insights.mpr
    right; right
    exact ⟨km, hmem, mem_predict_insights.mpr ⟨⟨hlen, (strictDesc_iff_chain _).mpr h⟩, rfl⟩⟩

def km_C4 : KPIMetric :=
  { id := "k", name := "K", description := "", category := "", keywords := [],
    currentScore := 1, previousScore := 1, trend := "stable",
    articleCount := 3, lastUpdated := "d3",
    historicalData := [{ date := "d1", score := 3, articleCount := 1 },
      { date := "d2", score := 2, articleCount := 1 },
      { date := "d3", score := 1, articleCount := 1 }] }

/-- Witness for claim C4 at a concrete input. -/
theorem claim_C4_witness : predictInsightRec km_C4 ∈ generate_insights [] [km_C4] [] :=
  (claim_C4 [] [km_C4] [] km_C4 (List.mem_singleton.mpr rfl) (by simp) (by decide)).1.mpr
    (by
      have h : recent_hist_scores km_C4 = [3, 2, 1] := by decide
      rw [h]
      norm_num [List.chain'_cons])
